import Mathlib

/-!
Verification of the `final_data_city_pipeline` repository's forecasting
pipeline (`train_models.py`) and the AQI conversion (`app.py`) against its
natural-language specification.

The pandas dataframe operations of `create_features` are embedded shallowly:
a dataframe row group for one area is a `List Reading` in the order the rows
arrive from `SELECT * FROM city_metrics ORDER BY timestamp` (pandas `shift`
and `rolling` are positional, so the embedding indexes rows by list
position).  Nullable SQL float columns become `Option ℚ`; `NaN` is `none`.
Timestamps are modelled as epoch seconds (`Int`); `pd.to_datetime` keeps
their order, and `.hour`, `.dayofweek`, `.month` are the usual calendar
decompositions (floor division on epoch seconds; the month uses the standard
civil-from-days algorithm).
-/

namespace CityPipeline

/-- The five entries of `TARGET_COLS` in `train_models.py`. -/
inductive Metric where
  | aqi
  | pm25
  | pm10
  | temperature
  | humidity
deriving DecidableEq

/-- `TARGET_COLS = ['aqi', 'pm25', 'pm10', 'temperature', 'humidity']`. -/
def TARGET_COLS : List Metric := [.aqi, .pm25, .pm10, .temperature, .humidity]

/-- One row of the `city_metrics` table (the `Reading` entity): nullable
numeric columns are `Option ℚ`, the timestamp is epoch seconds. -/
structure Reading where
  timestamp : Int
  area_name : String
  aqi : Option ℚ
  pm25 : Option ℚ
  pm10 : Option ℚ
  no2 : Option ℚ
  o3 : Option ℚ
  co : Option ℚ
  temperature : Option ℚ
  humidity : Option ℚ
deriving DecidableEq

/-- The raw column of a target metric in a reading. -/
def Reading.value (r : Reading) : Metric → Option ℚ
  | .aqi => r.aqi
  | .pm25 => r.pm25
  | .pm10 => r.pm10
  | .temperature => r.temperature
  | .humidity => r.humidity

/-- Replace the raw column of one target metric in a reading. -/
def Reading.setVal (r : Reading) (m : Metric) (v : Option ℚ) : Reading :=
  match m with
  | .aqi => { r with aqi := v }
  | .pm25 => { r with pm25 := v }
  | .pm10 => { r with pm10 := v }
  | .temperature => { r with temperature := v }
  | .humidity => { r with humidity := v }

/-- `df.index.hour` for an epoch-seconds timestamp. -/
def hourOf (t : Int) : Int := (t.fdiv 3600) % 24

/-- `df.index.dayofweek` (Monday = 0; the Unix epoch day is a Thursday). -/
def dayOfWeekOf (t : Int) : Int := (t.fdiv 86400 + 3) % 7

/-- `df.index.month` (1–12), via the standard civil-from-days algorithm. -/
def monthOf (t : Int) : Int :=
  let z : Int := t.fdiv 86400 + 719468
  let era : Int := (if 0 ≤ z then z else z - 146096) / 146097
  let doe : Int := z - era * 146097
  let yoe : Int := (doe - doe / 1460 + doe / 36524 - doe / 146096) / 365
  let doy : Int := doe - (365 * yoe + yoe / 4 - yoe / 100)
  let mp : Int := (5 * doy + 2) / 153
  if mp < 10 then mp + 3 else mp - 9

/-- `df[col].shift(1)` evaluated at position `i`: the raw value one position
earlier, `NaN` (`none`) at position 0 or when the earlier value is itself
`NaN`. -/
def lag1At (vals : List (Option ℚ)) (i : Nat) : Option ℚ :=
  if i = 0 then none else (vals[i - 1]?).bind id

/-- The defined values among positions `max 0 (i-3), …, i-1`: the window of
`df[col].shift(1).rolling(window=3, min_periods=1)` at position `i`, with
`NaN` entries dropped (pandas skips `NaN` inside a rolling mean). -/
def window3 (vals : List (Option ℚ)) (i : Nat) : List ℚ :=
  ((vals.take i).drop (i - 3)).filterMap id

/-- `df[col].shift(1).rolling(window=3, min_periods=1).mean()` at position
`i`: `NaN` when no defined value is in the window, otherwise the mean of the
defined values. -/
def rollAvg3At (vals : List (Option ℚ)) (i : Nat) : Option ℚ :=
  if window3 vals i = [] then none
  else some ((window3 vals i).sum / ((window3 vals i).length : ℚ))

/-- The column of one target metric over a row group. -/
def colOf (m : Metric) (rs : List Reading) : List (Option ℚ) :=
  rs.map (fun r => r.value m)

/-- A row of the dataframe produced by `create_features` BEFORE the final
`dropna()`: the original columns (the index `timestamp` and `area_name`
travel along), the three calendar columns, and the `_lag1` / `_roll_avg3`
columns for each of the five target metrics. -/
structure RawFeatured where
  timestamp : Int
  area_name : String
  hour : Int
  day_of_week : Int
  month : Int
  aqi : Option ℚ
  pm25 : Option ℚ
  pm10 : Option ℚ
  no2 : Option ℚ
  o3 : Option ℚ
  co : Option ℚ
  temperature : Option ℚ
  humidity : Option ℚ
  aqi_lag1 : Option ℚ
  aqi_roll_avg3 : Option ℚ
  pm25_lag1 : Option ℚ
  pm25_roll_avg3 : Option ℚ
  pm10_lag1 : Option ℚ
  pm10_roll_avg3 : Option ℚ
  temperature_lag1 : Option ℚ
  temperature_roll_avg3 : Option ℚ
  humidity_lag1 : Option ℚ
  humidity_roll_avg3 : Option ℚ
deriving DecidableEq

/-- The featured row built from the reading at position `i` of a row group. -/
def mkRawFeatured (rs : List Reading) (i : Nat) (r : Reading) : RawFeatured where
  timestamp := r.timestamp
  area_name := r.area_name
  hour := hourOf r.timestamp
  day_of_week := dayOfWeekOf r.timestamp
  month := monthOf r.timestamp
  aqi := r.aqi
  pm25 := r.pm25
  pm10 := r.pm10
  no2 := r.no2
  o3 := r.o3
  co := r.co
  temperature := r.temperature
  humidity := r.humidity
  aqi_lag1 := lag1At (colOf .aqi rs) i
  aqi_roll_avg3 := rollAvg3At (colOf .aqi rs) i
  pm25_lag1 := lag1At (colOf .pm25 rs) i
  pm25_roll_avg3 := rollAvg3At (colOf .pm25 rs) i
  pm10_lag1 := lag1At (colOf .pm10 rs) i
  pm10_roll_avg3 := rollAvg3At (colOf .pm10 rs) i
  temperature_lag1 := lag1At (colOf .temperature rs) i
  temperature_roll_avg3 := rollAvg3At (colOf .temperature rs) i
  humidity_lag1 := lag1At (colOf .humidity rs) i
  humidity_roll_avg3 := rollAvg3At (colOf .humidity rs) i

/-- The dataframe row at position `i` after the feature columns are added
(and `none` past the end of the group). -/
def rawFeaturedAt (rs : List Reading) (i : Nat) : Option RawFeatured :=
  (rs[i]?).map (mkRawFeatured rs i)

/-- `lag1` column of a featured row, selected by metric. -/
def RawFeatured.lagOf (x : RawFeatured) : Metric → Option ℚ
  | .aqi => x.aqi_lag1
  | .pm25 => x.pm25_lag1
  | .pm10 => x.pm10_lag1
  | .temperature => x.temperature_lag1
  | .humidity => x.humidity_lag1

/-- `roll_avg3` column of a featured row, selected by metric. -/
def RawFeatured.rollOf (x : RawFeatured) : Metric → Option ℚ
  | .aqi => x.aqi_roll_avg3
  | .pm25 => x.pm25_roll_avg3
  | .pm10 => x.pm10_roll_avg3
  | .temperature => x.temperature_roll_avg3
  | .humidity => x.humidity_roll_avg3

/-- Raw column of a featured row, selected by metric. -/
def RawFeatured.valueOf (x : RawFeatured) : Metric → Option ℚ
  | .aqi => x.aqi
  | .pm25 => x.pm25
  | .pm10 => x.pm10
  | .temperature => x.temperature
  | .humidity => x.humidity

/-- The row survives `df.dropna()`: every column of the row is defined
(`timestamp` is the index and `area_name` a string; the numeric columns —
including the never-featurized `no2`, `o3`, `co` — and all ten lag/rolling
columns must all be non-`NaN`). -/
def RawFeatured.noNaN (x : RawFeatured) : Bool :=
  x.aqi.isSome && x.pm25.isSome && x.pm10.isSome && x.no2.isSome &&
  x.o3.isSome && x.co.isSome && x.temperature.isSome && x.humidity.isSome &&
  x.aqi_lag1.isSome && x.aqi_roll_avg3.isSome &&
  x.pm25_lag1.isSome && x.pm25_roll_avg3.isSome &&
  x.pm10_lag1.isSome && x.pm10_roll_avg3.isSome &&
  x.temperature_lag1.isSome && x.temperature_roll_avg3.isSome &&
  x.humidity_lag1.isSome && x.humidity_roll_avg3.isSome

/-- `create_features(df)` for the row group of one area, in the row order the
group arrives: add calendar and lag/rolling columns, then `dropna()`. -/
def create_features (rs : List Reading) : List RawFeatured :=
  ((List.range rs.length).filterMap (rawFeaturedAt rs)).filter RawFeatured.noNaN

/-- Whether the reading at position `i` contributes a row to the featured
dataframe (and hence to every metric's design matrix). -/
def survives (rs : List Reading) (i : Nat) : Bool :=
  ((rawFeaturedAt rs i).map RawFeatured.noNaN).getD false

/-- `pm25_to_us_aqi` from `app.py`, on exact rationals (the Python float
computation agrees with the exact one on every branch condition and, far from
any rounding boundary, on the displayed rounded values). `None` propagation
for a `NaN` input is outside the function's numeric domain and not modelled:
the argument is a present (non-null) PM2.5 concentration. -/
def pm25_to_us_aqi (q : ℚ) : ℚ :=
  if q < 0 then 0
  else if q > 1000 then 500
  else if 0 ≤ q ∧ q ≤ 12 then ((50 - 0) / (12 - 0)) * (q - 0) + 0
  else if 12.1 ≤ q ∧ q ≤ 35.4 then ((100 - 51) / (35.4 - 12.1)) * (q - 12.1) + 51
  else if 35.5 ≤ q ∧ q ≤ 55.4 then ((150 - 101) / (55.4 - 35.5)) * (q - 35.5) + 101
  else if 55.5 ≤ q ∧ q ≤ 150.4 then ((200 - 151) / (150.4 - 55.5)) * (q - 55.5) + 151
  else if 150.5 ≤ q ∧ q ≤ 250.4 then ((300 - 201) / (250.4 - 150.5)) * (q - 150.5) + 201
  else if 250.5 ≤ q ∧ q ≤ 350.4 then ((400 - 301) / (350.4 - 250.5)) * (q - 250.5) + 301
  else ((500 - 401) / (500.4 - 350.5)) * (q - 350.5) + 401

/-- Column name of a target metric. -/
def colName : Metric → String
  | .aqi => "aqi"
  | .pm25 => "pm25"
  | .pm10 => "pm10"
  | .temperature => "temperature"
  | .humidity => "humidity"

/-- The columns of the `city_metrics` table (`collect_data.py` creates it
with exactly these, and `SELECT *` returns them all). -/
def baseTableCols : List String :=
  ["id", "timestamp", "area_name", "aqi", "pm25", "pm10", "no2", "o3", "co",
   "temperature", "humidity"]

/-- Column schema of the dataframe returned by `create_features`:
`timestamp` becomes the index (`set_index` removes it from the columns), the
three calendar columns are always added, and the `_lag1` / `_roll_avg3` pair
is added for each target column actually present in the input. -/
def createFeaturesCols (cols : List String) : List String :=
  (cols.filter (fun c => c ≠ "timestamp")) ++ ["hour", "day_of_week", "month"] ++
    (TARGET_COLS.filter (fun m => decide (colName m ∈ cols))).flatMap
      (fun m => [colName m ++ "_lag1", colName m ++ "_roll_avg3"])

/-- `feature_cols` for one target metric, in the order the training loop
lists them. -/
def feature_cols (m : Metric) : List String :=
  ["hour", "day_of_week", "month", colName m ++ "_lag1", colName m ++ "_roll_avg3"]

/-- `valid_features = [f for f in feature_cols if f in df_featured.columns]`. -/
def valid_features (m : Metric) (cols : List String) : List String :=
  (feature_cols m).filter (fun f => decide (f ∈ cols))

/-- The guard `if not valid_features or f'{target_col}_lag1' not in
valid_features` of the training loop: skip this metric for this area. -/
def skipsMetric (m : Metric) (cols : List String) : Bool :=
  (valid_features m cols).isEmpty ||
    !(decide ((colName m ++ "_lag1") ∈ valid_features m cols))

/-- `train_test_split(..., test_size=0.2, shuffle=False)` test-set size:
`ceil(0.2 * n)` (sklearn); exact rational arithmetic, which agrees with the
float computation throughout the realistic sample-size range. -/
def tts_n_test (n : Nat) : Nat := (n + 4) / 5

/-- The training partition of `train_test_split(..., shuffle=False)`: the
first `n - ceil(0.2 * n)` rows in their given order. -/
def tts_train (xs : List α) : List α :=
  xs.take (xs.length - tts_n_test xs.length)

/-- The test partition of `train_test_split(..., shuffle=False)`: the
remaining rows in their given order. -/
def tts_test (xs : List α) : List α :=
  xs.drop (xs.length - tts_n_test xs.length)

/-- The persisted artifact of one training unit: `joblib.dump({'model': …,
'features': valid_features}, f'models/{area}_{target_col}_model.pkl')`.  The
fitted regressor state is opaque to this development. -/
structure TrainedModel where
  area : String
  metric : Metric
  features : List String
deriving DecidableEq

/-- The outcome of one `(area, metric)` iteration of the inner training
loop. -/
inductive UnitOutcome where
  | skippedMissingFeatures : String → Metric → UnitOutcome
  | trained : String → Metric → TrainedModel → UnitOutcome
deriving DecidableEq

/-- The outcome of one area iteration of the outer loop. -/
inductive AreaOutcome where
  | skippedInsufficientData : String → AreaOutcome
  | trainedUnits : List UnitOutcome → AreaOutcome
deriving DecidableEq

/-- A fit procedure abstracting `xgb.XGBRegressor(...).fit` (an external
library): given the area, the metric and the chronological training rows it
either returns a fitted model or fails; in Python a failure is a raised
exception, here the `Except.error` case. -/
def FitProc : Type := String → Metric → List RawFeatured → Except String TrainedModel

/-- One `(area, metric)` iteration of the training loop: the
`valid_features` guard (on the schema the pipeline's dataframe actually has,
namely `create_features` of the full table schema), then the 80/20 split and
the fit.  The loop body has no exception handler, so a fit error escapes as
`Except.error`. -/
def trainUnit (fit : FitProc) (area : String) (featured : List RawFeatured)
    (m : Metric) : Except String UnitOutcome :=
  if skipsMetric m (createFeaturesCols baseTableCols) then
    .ok (.skippedMissingFeatures area m)
  else do
    let mdl ← fit area m (tts_train featured)
    pure (.trained area m mdl)

/-- One area iteration of `__main__`: build the featured dataframe, skip the
whole area when it has fewer than 50 featured rows, otherwise run the
per-metric loop over `TARGET_COLS` (an uncaught fit exception aborts the
loop, modelled by `Except` bind). -/
def processArea (fit : FitProc) (area : String) (rs : List Reading) :
    Except String AreaOutcome :=
  if (create_features rs).length < 50 then
    .ok (.skippedInsufficientData area)
  else do
    let outs ← TARGET_COLS.mapM (trainUnit fit area (create_features rs))
    pure (.trainedUnits outs)

/-- The outer loop of `__main__` over the distinct areas (each paired with
its row group, in table order); an uncaught exception in any area aborts the
remaining areas as well. -/
def runTraining (fit : FitProc) (areas : List (String × List Reading)) :
    Except String (List AreaOutcome) :=
  areas.mapM (fun p => processArea fit p.1 p.2)

/-- A fully populated reading for area "Bandra" at hour `i`, every numeric
column present with value `i`. -/
def mkR (i : Nat) : Reading where
  timestamp := 3600 * (i : Int)
  area_name := "Bandra"
  aqi := some (i : ℚ)
  pm25 := some (i : ℚ)
  pm10 := some (i : ℚ)
  no2 := some (i : ℚ)
  o3 := some (i : ℚ)
  co := some (i : ℚ)
  temperature := some (i : ℚ)
  humidity := some (i : ℚ)

/-- Like `mkR` but with a missing `no2` sensor field (a `NULL` in the
store). -/
def mkRNullNo2 (i : Nat) : Reading :=
  { mkR i with no2 := none }

/-- A 51-reading fully populated row group (50 featured rows). -/
def rsA : List Reading := (List.range 51).map mkR

/-- Two chronologically ordered fully populated readings. -/
def rs2 : List Reading := [mkR 0, mkR 1]

/-- Three readings sharing one area, presented out of timestamp order. -/
def rsUnsorted : List Reading := [mkR 0, mkR 2, mkR 1]

/-- Three readings in chronological order whose middle row is missing only
its `no2` column. -/
def rsC5 : List Reading := [mkR 0, mkRNullNo2 1, mkR 2]

/-- A fit procedure that always fails, abstracting a fit-time exception from
the regression library (e.g. a degenerate target). -/
def fitFail : FitProc := fun _ _ _ => .error "fit rejected input"

/-- The featured row the pipeline builds at position 1 of `rs2`. -/
def fr2 : RawFeatured := mkRawFeatured rs2 1 (mkR 1)

/-- The featured row the pipeline builds at position 1 of `rsC5` (its `no2`
column is `NaN`, so `dropna()` discards it). -/
def frC5 : RawFeatured := mkRawFeatured rsC5 1 (mkRNullNo2 1)

theorem mkRawFeatured_lagOf (rs : List Reading) (i : Nat) (r : Reading) (m : Metric) :
    (mkRawFeatured rs i r).lagOf m = lag1At (colOf m rs) i := by
  cases m <;> rfl

theorem mkRawFeatured_rollOf (rs : List Reading) (i : Nat) (r : Reading) (m : Metric) :
    (mkRawFeatured rs i r).rollOf m = rollAvg3At (colOf m rs) i := by
  cases m <;> rfl

theorem mkRawFeatured_valueOf (rs : List Reading) (i : Nat) (r : Reading) (m : Metric) :
    (mkRawFeatured rs i r).valueOf m = r.value m := by
  cases m <;> rfl

theorem noNaN_iff (x : RawFeatured) :
    x.noNaN = true ↔
      (∀ m : Metric, (x.valueOf m).isSome = true) ∧ x.no2.isSome = true ∧
        x.o3.isSome = true ∧ x.co.isSome = true ∧
        (∀ m : Metric, (x.lagOf m).isSome = true) ∧
        (∀ m : Metric, (x.rollOf m).isSome = true) := by
  simp only [RawFeatured.noNaN, Bool.and_eq_true]
  constructor
  · rintro ⟨⟨⟨⟨⟨⟨⟨⟨⟨⟨⟨⟨⟨⟨⟨⟨⟨h1, h2⟩, h3⟩, h4⟩, h5⟩, h6⟩, h7⟩, h8⟩, h9⟩,
      h10⟩, h11⟩, h12⟩, h13⟩, h14⟩, h15⟩, h16⟩, h17⟩, h18⟩
    exact ⟨fun m => by cases m <;> assumption, h4, h5, h6,
      fun m => by cases m <;> assumption, fun m => by cases m <;> assumption⟩
  · rintro ⟨hv, hno2, ho3, hco, hl, hr⟩
    exact ⟨⟨⟨⟨⟨⟨⟨⟨⟨⟨⟨⟨⟨⟨⟨⟨⟨hv .aqi, hv .pm25⟩, hv .pm10⟩, hno2⟩, ho3⟩, hco⟩,
      hv .temperature⟩, hv .humidity⟩, hl .aqi⟩, hr .aqi⟩, hl .pm25⟩, hr .pm25⟩,
      hl .pm10⟩, hr .pm10⟩, hl .temperature⟩, hr .temperature⟩, hl .humidity⟩,
      hr .humidity⟩

theorem lag1At_eq_some {vals : List (Option ℚ)} {i : Nat} {q : ℚ} :
    lag1At vals i = some q ↔ 1 ≤ i ∧ vals[i - 1]? = some (some q) := by
  unfold lag1At
  split
  · simp [*]
  · rename_i h
    simp [Option.bind_eq_some, Nat.one_le_iff_ne_zero, h]

theorem lag1At_isSome {vals : List (Option ℚ)} {i : Nat} :
    (lag1At vals i).isSome = true ↔
      1 ≤ i ∧ ∃ q : ℚ, vals[i - 1]? = some (some q) := by
  rw [Option.isSome_iff_exists]
  constructor
  · rintro ⟨q, hq⟩
    rcases lag1At_eq_some.1 hq with ⟨h1, h2⟩
    exact ⟨h1, q, h2⟩
  · rintro ⟨h1, q, h2⟩
    exact ⟨q, lag1At_eq_some.2 ⟨h1, h2⟩⟩

theorem rollAvg3At_isSome {vals : List (Option ℚ)} {i : Nat} :
    (rollAvg3At vals i).isSome = true ↔ window3 vals i ≠ [] := by
  unfold rollAvg3At
  split <;> simp [*]

theorem rollAvg3At_eq_some {vals : List (Option ℚ)} {i : Nat} {q : ℚ} :
    rollAvg3At vals i = some q ↔
      window3 vals i ≠ [] ∧
        q = (window3 vals i).sum / ((window3 vals i).length : ℚ) := by
  unfold rollAvg3At
  split <;> simp [*, eq_comm]

theorem colOf_set (m : Metric) (rs : List Reading) (i : Nat) (r' : Reading) :
    colOf m (rs.set i r') = (colOf m rs).set i (r'.value m) := by
  simp [colOf]

theorem lag1At_set_self (vals : List (Option ℚ)) (i : Nat) (v : Option ℚ) :
    lag1At (vals.set i v) i = lag1At vals i := by
  unfold lag1At
  split
  · rfl
  · rename_i h
    rw [List.getElem?_set_ne (by omega)]

theorem window3_set_self (vals : List (Option ℚ)) (i : Nat) (v : Option ℚ) :
    window3 (vals.set i v) i = window3 vals i := by
  unfold window3
  rw [List.set_take, List.set_eq_of_length_le]
  rw [List.length_take]
  exact Nat.min_le_left _ _

theorem rollAvg3At_set_self (vals : List (Option ℚ)) (i : Nat) (v : Option ℚ) :
    rollAvg3At (vals.set i v) i = rollAvg3At vals i := by
  unfold rollAvg3At
  rw [window3_set_self]

theorem mem_window3_of_getElem {vals : List (Option ℚ)} {i j : Nat} {q : ℚ}
    (hji : j < i) (hij : i ≤ j + 3) (h : vals[j]? = some (some q)) :
    q ∈ window3 vals i := by
  unfold window3
  rw [List.mem_filterMap]
  refine ⟨some q, ?_, rfl⟩
  rw [List.mem_iff_getElem?]
  refine ⟨j - (i - 3), ?_⟩
  rw [List.getElem?_drop, show i - 3 + (j - (i - 3)) = j by omega,
    List.getElem?_take_of_lt hji]
  exact h

theorem exists_getElem_of_mem_window3 {vals : List (Option ℚ)} {i : Nat} {q : ℚ}
    (h : q ∈ window3 vals i) :
    ∃ j, j < i ∧ i ≤ j + 3 ∧ vals[j]? = some (some q) := by
  unfold window3 at h
  rw [List.mem_filterMap] at h
  obtain ⟨o, ho, hoq⟩ := h
  obtain rfl : o = some q := by simpa using hoq
  rw [List.mem_iff_getElem?] at ho
  obtain ⟨k, hk⟩ := ho
  rw [List.getElem?_drop] at hk
  have hlt : i - 3 + k < i := by
    by_contra hge
    rw [List.getElem?_eq_none (by rw [List.length_take]; omega)] at hk
    exact Option.noConfusion hk
  rw [List.getElem?_take_of_lt hlt] at hk
  exact ⟨i - 3 + k, hlt, by omega, hk⟩

/-- C3: for every (area, metric) training unit the `shuffle=False` 80/20
split of the featured rows is chronological, with no shuffling: the training
partition is exactly the first `floor(0.8 * n)` featured rows (so no row at
or after position `floor(0.8 * n)` appears in it), and the test partition is
exactly the rest. -/
theorem c3_chronological_split (rs : List Reading) :
    tts_train (create_features rs) =
        (create_features rs).take (4 * (create_features rs).length / 5) ∧
      tts_test (create_features rs) =
        (create_features rs).drop (4 * (create_features rs).length / 5) ∧
      (tts_train (create_features rs)).length =
        4 * (create_features rs).length / 5 := by
  have h : ∀ n : Nat, n - tts_n_test n = 4 * n / 5 := by
    intro n
    unfold tts_n_test
    omega
  refine ⟨?_, ?_, ?_⟩
  · unfold tts_train
    rw [h]
  · unfold tts_test
    rw [h]
  · unfold tts_train
    rw [h, List.length_take]
    omega

/-- C7: an area whose featured dataframe has fewer than 50 rows is skipped
entirely — the outcome is a non-error informational skip and no metric of
that area yields a `TrainedModel`, whatever the fit procedure would do. -/
theorem c7_insufficient_data (fit : FitProc) (area : String) (rs : List Reading)
    (h : (create_features rs).length < 50) :
    processArea fit area rs = .ok (.skippedInsufficientData area) := by
  unfold processArea
  rw [if_pos h]

/-- Witness for C7 at a concrete empty row group. -/
theorem c7_insufficient_data_witness :
    (create_features ([] : List Reading)).length < 50 ∧
      processArea fitFail "Colaba" [] = .ok (.skippedInsufficientData "Colaba") :=
  ⟨by decide, c7_insufficient_data fitFail "Colaba" [] (by decide)⟩

/-- C8 counterexample: the spec's scenario value is wrong: the interpolation
`((150-101)/(55.4-35.5))*(40.0-35.5)+101` rounds to 112, not 111. -/
theorem c8_counterexample : round (pm25_to_us_aqi 40) ≠ 111 := by
  have h : pm25_to_us_aqi 40 = 22304 / 199 := by norm_num [pm25_to_us_aqi]
  rw [h]
  norm_num [round_eq]

/-- C8 amended: a PM2.5 reading of 40.0 falls in the 35.5–55.4 band and maps
to `((150-101)/(55.4-35.5))*(40.0-35.5)+101 = 22304/199 ≈ 112.08`, whose
rounded value is 112, inside the 101–150 range. -/
theorem c8_amended :
    (35.5 : ℚ) ≤ 40 ∧ (40 : ℚ) ≤ 55.4 ∧
      pm25_to_us_aqi 40 = ((150 - 101) / ((55.4 : ℚ) - 35.5)) * (40 - 35.5) + 101 ∧
      pm25_to_us_aqi 40 = 22304 / 199 ∧
      round (pm25_to_us_aqi 40) = 112 ∧
      101 ≤ pm25_to_us_aqi 40 ∧ pm25_to_us_aqi 40 ≤ 150 := by
  have h : pm25_to_us_aqi 40 = 22304 / 199 := by norm_num [pm25_to_us_aqi]
  refine ⟨by norm_num, by norm_num, ?_, h, ?_, ?_, ?_⟩
  · rw [h]
    norm_num
  · rw [h]
    norm_num [round_eq]
  · rw [h]
    norm_num
  · rw [h]
    norm_num

/-- C9 counterexample: the AQI value is NOT bounded by 500 for every
non-null input: a PM2.5 concentration of 600 (within the 500.4–1000 hole of
the breakpoint table) falls through to the last band's formula and yields
848104/1499 ≈ 565.78 > 500. -/
theorem c9_counterexample :
    pm25_to_us_aqi 600 = 848104 / 1499 ∧ 500 < pm25_to_us_aqi 600 := by
  constructor
  · norm_num [pm25_to_us_aqi]
  · norm_num [pm25_to_us_aqi]

/-- C9 amended: the bound does hold away from the table's uncovered interval:
for every non-null PM2.5 input that is at most 500.4 (in particular every
negative input) or greater than 1000, the computed AQI lies in [0, 500];
inputs in (500.4, 1000] can exceed 500. -/
theorem c9_amended (q : ℚ) (h : q ≤ 500.4 ∨ 1000 < q) :
    0 ≤ pm25_to_us_aqi q ∧ pm25_to_us_aqi q ≤ 500 := by
  unfold pm25_to_us_aqi
  split_ifs with h1 h2 h3 h4 h5 h6 h7 h8
  · constructor <;> norm_num
  · constructor <;> norm_num
  · obtain ⟨ha, hb⟩ := h3
    constructor <;> [linarith; linarith]
  · obtain ⟨ha, hb⟩ := h4
    constructor <;> [linarith; linarith]
  · obtain ⟨ha, hb⟩ := h5
    constructor <;> [linarith; linarith]
  · obtain ⟨ha, hb⟩ := h6
    constructor <;> [linarith; linarith]
  · obtain ⟨ha, hb⟩ := h7
    constructor <;> [linarith; linarith]
  · obtain ⟨ha, hb⟩ := h8
    constructor <;> [linarith; linarith]
  · push_neg at h1 h2 h3 h4 h5 h6 h7 h8
    have h0 : (0 : ℚ) ≤ q := h1
    have h12 : (12 : ℚ) < q := h3 h0
    rcases h with h | h
    · constructor <;> [linarith; linarith]
    · linarith

/-- Witness for C9 amended at the in-band input 40. -/
theorem c9_amended_witness :
    ((40 : ℚ) ≤ 500.4 ∨ (1000 : ℚ) < 40) ∧
      0 ≤ pm25_to_us_aqi 40 ∧ pm25_to_us_aqi 40 ≤ 500 :=
  ⟨Or.inl (by norm_num), c9_amended 40 (Or.inl (by norm_num))⟩

/-- C2 counterexample: `create_features` never re-sorts (there is no
`sort_values`/`sort_index` call), so on an out-of-timestamp-order group its
output is not sorted ascending by timestamp. -/
theorem c2_counterexample :
    (create_features rsUnsorted).map (fun x => x.timestamp) = [7200, 3600] ∧
      ¬ List.Pairwise (fun a b : RawFeatured => a.timestamp ≤ b.timestamp)
          (create_features rsUnsorted) := by
  constructor
  · rfl
  · decide

/-- The timestamp of a featured row is the timestamp of the reading it was
built from. -/
theorem rawFeaturedAt_timestamp {rs : List Reading} {i : Nat} {fr : RawFeatured}
    (h : rawFeaturedAt rs i = some fr) :
    ∃ r : Reading, rs[i]? = some r ∧ fr.timestamp = r.timestamp := by
  unfold rawFeaturedAt at h
  rw [Option.map_eq_some'] at h
  obtain ⟨r, hr, hfr⟩ := h
  exact ⟨r, hr, by rw [← hfr]; rfl⟩

/-- C2 amended: `create_features` preserves the input row order (it does not
re-sort), so its output is sorted ascending by timestamp exactly when its
input group is — which the orchestrator guarantees by reading the store with
`ORDER BY timestamp`. -/
theorem c2_sorted_of_sorted (rs : List Reading)
    (h : List.Pairwise (fun a b : Reading => a.timestamp ≤ b.timestamp) rs) :
    List.Pairwise (fun a b : RawFeatured => a.timestamp ≤ b.timestamp)
      (create_features rs) := by
  unfold create_features
  apply List.Pairwise.filter
  apply List.Pairwise.filterMap (R := fun i j : Nat => i < j)
  · intro i j hij x hx y hy
    obtain ⟨ri, hri, hxi⟩ := rawFeaturedAt_timestamp (Option.mem_def.1 hx)
    obtain ⟨rj, hrj, hyj⟩ := rawFeaturedAt_timestamp (Option.mem_def.1 hy)
    obtain ⟨hi, hri'⟩ := List.getElem?_eq_some_iff.1 hri
    obtain ⟨hj, hrj'⟩ := List.getElem?_eq_some_iff.1 hrj
    rw [hxi, hyj, ← hri', ← hrj']
    exact List.pairwise_iff_getElem.1 h i j hi hj hij
  · exact List.pairwise_lt_range rs.length

/-- Witness for C2 amended on a concretely sorted two-row group. -/
theorem c2_sorted_of_sorted_witness :
    List.Pairwise (fun a b : Reading => a.timestamp ≤ b.timestamp) rs2 ∧
      List.Pairwise (fun a b : RawFeatured => a.timestamp ≤ b.timestamp)
        (create_features rs2) :=
  ⟨by decide, c2_sorted_of_sorted rs2 (by decide)⟩

/-- C10: the final `dropna()` is global across columns: if ANY numeric
column of the reading at position `i` is missing — including the raw
pollutant columns `no2`, `o3`, `co` that are never used as features, and the
raw columns of other target metrics — the featured row is dropped, and so the
reading contributes a row to no metric's training set. -/
theorem c10_global_dropna (rs : List Reading) (i : Nat) (r : Reading)
    (hr : rs[i]? = some r)
    (hnull : r.aqi = none ∨ r.pm25 = none ∨ r.pm10 = none ∨ r.no2 = none ∨
      r.o3 = none ∨ r.co = none ∨ r.temperature = none ∨ r.humidity = none) :
    rawFeaturedAt rs i = some (mkRawFeatured rs i r) ∧
      (mkRawFeatured rs i r).noNaN = false ∧
      mkRawFeatured rs i r ∉ create_features rs := by
  have h1 : rawFeaturedAt rs i = some (mkRawFeatured rs i r) := by
    unfold rawFeaturedAt
    rw [hr]
    rfl
  have h2 : (mkRawFeatured rs i r).noNaN = false := by
    rcases hnull with h | h | h | h | h | h | h | h <;>
      simp [RawFeatured.noNaN, mkRawFeatured, h]
  refine ⟨h1, h2, ?_⟩
  intro hmem
  unfold create_features at hmem
  rw [List.mem_filter, h2] at hmem
  exact Bool.noConfusion hmem.2

/-- Witness for C10: a single missing `no2` field in `rsC5`'s middle reading
drops that row from the featured output entirely. -/
theorem c10_global_dropna_witness :
    rsC5[1]? = some (mkRNullNo2 1) ∧
      ((mkRNullNo2 1).aqi = none ∨ (mkRNullNo2 1).pm25 = none ∨
        (mkRNullNo2 1).pm10 = none ∨ (mkRNullNo2 1).no2 = none ∨
        (mkRNullNo2 1).o3 = none ∨ (mkRNullNo2 1).co = none ∨
        (mkRNullNo2 1).temperature = none ∨ (mkRNullNo2 1).humidity = none) ∧
      rawFeaturedAt rsC5 1 = some (mkRawFeatured rsC5 1 (mkRNullNo2 1)) ∧
      (mkRawFeatured rsC5 1 (mkRNullNo2 1)).noNaN = false ∧
      mkRawFeatured rsC5 1 (mkRNullNo2 1) ∉ create_features rsC5 :=
  ⟨by decide, by decide,
    c10_global_dropna rsC5 1 (mkRNullNo2 1) (by decide) (by decide)⟩

/-- Unfolding of `survives`: the reading at `i` contributes a featured row
exactly when it exists and its featured row passes `dropna()`. -/
theorem survives_eq_true_iff (rs : List Reading) (i : Nat) :
    survives rs i = true ↔
      ∃ r : Reading, rs[i]? = some r ∧ (mkRawFeatured rs i r).noNaN = true := by
  unfold survives rawFeaturedAt
  cases hr : rs[i]? <;> simp [hr]

/-- C5 counterexample: at position 1 of `rsC5` the pm25 lag is defined
(`some 0`), yet the row is excluded from pm25's training set, because a
DIFFERENT column (`no2`) is missing and `dropna()` is global. -/
theorem c5_counterexample :
    rawFeaturedAt rsC5 1 = some frC5 ∧
      frC5.pm25_lag1 = (mkR 0).pm25 ∧
      frC5.pm25_lag1.isSome = true ∧
      frC5.noNaN = false ∧
      survives rsC5 1 = false :=
  ⟨rfl, rfl, by decide, by decide, by decide⟩

/-- C5 amended: metrics are NOT featurized independently — all five target
metrics share one featured row set.  A reading contributes a training row
(for every metric alike) exactly when it is not the first row, all of its own
numeric columns (including `no2`, `o3`, `co`) are present, and the preceding
reading has all five target columns present; so a missing value for a
different metric also removes the row from metric m's training set. -/
theorem c5_shared_row_set (rs : List Reading) (i : Nat) :
    survives rs i = true ↔
      ∃ r prev : Reading, rs[i]? = some r ∧ 1 ≤ i ∧ rs[i - 1]? = some prev ∧
        (∀ m : Metric, (r.value m).isSome = true) ∧
        r.no2.isSome = true ∧ r.o3.isSome = true ∧ r.co.isSome = true ∧
        (∀ m : Metric, (prev.value m).isSome = true) := by
  rw [survives_eq_true_iff]
  constructor
  · rintro ⟨r, hr, hno⟩
    rw [noNaN_iff] at hno
    obtain ⟨hv, hno2, ho3, hco, hl, _⟩ := hno
    have haqi := hl .aqi
    rw [mkRawFeatured_lagOf, lag1At_isSome] at haqi
    obtain ⟨hi1, q, hq⟩ := haqi
    rw [colOf, List.getElem?_map, Option.map_eq_some'] at hq
    obtain ⟨prev, hprev, _⟩ := hq
    refine ⟨r, prev, hr, hi1, hprev, ?_, hno2, ho3, hco, ?_⟩
    · intro m
      have hm := hv m
      rwa [mkRawFeatured_valueOf] at hm
    · intro m
      have hm := hl m
      rw [mkRawFeatured_lagOf, lag1At_isSome] at hm
      obtain ⟨_, q', hq'⟩ := hm
      rw [colOf, List.getElem?_map, hprev] at hq'
      have hpm : prev.value m = some q' := by simpa using hq'
      simp [hpm]
  · rintro ⟨r, prev, hr, hi1, hprev, hv, hno2, ho3, hco, hprevv⟩
    refine ⟨r, hr, ?_⟩
    rw [noNaN_iff]
    have hcol : ∀ m : Metric, ∃ qm : ℚ, (colOf m rs)[i - 1]? = some (some qm) := by
      intro m
      obtain ⟨qm, hqm⟩ := Option.isSome_iff_exists.1 (hprevv m)
      refine ⟨qm, ?_⟩
      rw [colOf, List.getElem?_map, hprev]
      simp [hqm]
    refine ⟨?_, hno2, ho3, hco, ?_, ?_⟩
    · intro m
      rw [mkRawFeatured_valueOf]
      exact hv m
    · intro m
      rw [mkRawFeatured_lagOf, lag1At_isSome]
      exact ⟨hi1, hcol m⟩
    · intro m
      rw [mkRawFeatured_rollOf, rollAvg3At_isSome]
      obtain ⟨qm, hqm⟩ := hcol m
      exact List.ne_nil_of_mem
        (mem_window3_of_getElem (by omega) (by omega) hqm)

/-- C1: in a surviving featured row built from position `i` of a
chronologically sorted group, for every target metric the `lag1` feature is
the raw value of the (chronologically) preceding reading — never the current
one's — and `roll_avg3` is the mean of the defined values among the up-to-3
positions strictly before `i`; consequently replacing the reading at
position `i` (in particular mutating its own raw metric value) changes
neither the `lag1` nor the `roll_avg3` computed at position `i`. -/
theorem c1_no_leakage (rs : List Reading) (i : Nat) (fr : RawFeatured) (m : Metric)
    (hsort : List.Pairwise (fun a b : Reading => a.timestamp ≤ b.timestamp) rs)
    (hfr : rawFeaturedAt rs i = some fr) (hkeep : fr.noNaN = true) :
    (∃ prev : Reading, 1 ≤ i ∧ rs[i - 1]? = some prev ∧
        fr.lagOf m = prev.value m ∧ prev.timestamp ≤ fr.timestamp) ∧
      (window3 (colOf m rs) i ≠ [] ∧
        fr.rollOf m =
          some ((window3 (colOf m rs) i).sum /
            ((window3 (colOf m rs) i).length : ℚ)) ∧
        ∀ q ∈ window3 (colOf m rs) i,
          ∃ j, j < i ∧ i ≤ j + 3 ∧ (colOf m rs)[j]? = some (some q)) ∧
      ∀ r' : Reading,
        lag1At (colOf m (rs.set i r')) i = lag1At (colOf m rs) i ∧
          rollAvg3At (colOf m (rs.set i r')) i = rollAvg3At (colOf m rs) i := by
  unfold rawFeaturedAt at hfr
  obtain ⟨r, hr, hfrr⟩ := Option.map_eq_some'.1 hfr
  subst hfrr
  rw [noNaN_iff] at hkeep
  obtain ⟨_, _, _, _, hl, hroll⟩ := hkeep
  have hlag := hl m
  rw [mkRawFeatured_lagOf, lag1At_isSome] at hlag
  obtain ⟨hi1, q, hq⟩ := hlag
  have hlagval : lag1At (colOf m rs) i = some q := lag1At_eq_some.2 ⟨hi1, hq⟩
  rw [colOf, List.getElem?_map, Option.map_eq_some'] at hq
  obtain ⟨prev, hprev, hpq⟩ := hq
  have hwne : window3 (colOf m rs) i ≠ [] := by
    have h := hroll m
    rwa [mkRawFeatured_rollOf, rollAvg3At_isSome] at h
  refine ⟨⟨prev, hi1, hprev, ?_, ?_⟩, ⟨hwne, ?_, ?_⟩, ?_⟩
  · rw [mkRawFeatured_lagOf, hlagval, hpq]
  · obtain ⟨hiplen, hprevget⟩ := List.getElem?_eq_some_iff.1 hprev
    obtain ⟨hilen, hrget⟩ := List.getElem?_eq_some_iff.1 hr
    have hle := List.pairwise_iff_getElem.1 hsort (i - 1) i hiplen hilen (by omega)
    rw [hprevget, hrget] at hle
    exact hle
  · rw [mkRawFeatured_rollOf]
    unfold rollAvg3At
    rw [if_neg hwne]
  · intro qv hqv
    exact exists_getElem_of_mem_window3 hqv
  · intro r'
    rw [colOf_set]
    exact ⟨lag1At_set_self _ i _, rollAvg3At_set_self _ i _⟩

/-- Witness for C1 on the concrete sorted two-row group `rs2`, for the
pm25 metric. -/
theorem c1_no_leakage_witness :
    List.Pairwise (fun a b : Reading => a.timestamp ≤ b.timestamp) rs2 ∧
      rawFeaturedAt rs2 1 = some fr2 ∧ fr2.noNaN = true ∧
      ((∃ prev : Reading, 1 ≤ 1 ∧ rs2[1 - 1]? = some prev ∧
          fr2.lagOf .pm25 = prev.value .pm25 ∧ prev.timestamp ≤ fr2.timestamp) ∧
        (window3 (colOf .pm25 rs2) 1 ≠ [] ∧
          fr2.rollOf .pm25 =
            some ((window3 (colOf .pm25 rs2) 1).sum /
              ((window3 (colOf .pm25 rs2) 1).length : ℚ)) ∧
          ∀ q ∈ window3 (colOf .pm25 rs2) 1,
            ∃ j, j < 1 ∧ 1 ≤ j + 3 ∧ (colOf .pm25 rs2)[j]? = some (some q)) ∧
        ∀ r' : Reading,
          lag1At (colOf .pm25 (rs2.set 1 r')) 1 = lag1At (colOf .pm25 rs2) 1 ∧
            rollAvg3At (colOf .pm25 (rs2.set 1 r')) 1 =
              rollAvg3At (colOf .pm25 rs2) 1) :=
  ⟨by decide, rfl, by decide,
    c1_no_leakage rs2 1 fr2 .pm25 (by decide) rfl (by decide)⟩

/-- The calendar columns are always present in the featured schema. -/
theorem calendar_mem_createFeaturesCols (cols : List String) :
    "hour" ∈ createFeaturesCols cols ∧ "day_of_week" ∈ createFeaturesCols cols ∧
      "month" ∈ createFeaturesCols cols := by
  unfold createFeaturesCols
  refine ⟨?_, ?_, ?_⟩ <;> simp

/-- A metric's `_lag1` column is in the featured schema exactly when the
metric's raw column was in the input schema (for input schemas drawn from the
`city_metrics` table). -/
theorem lag1_mem_createFeaturesCols {cols : List String} (m : Metric)
    (hsub : cols ⊆ baseTableCols) :
    (colName m ++ "_lag1") ∈ createFeaturesCols cols ↔ colName m ∈ cols := by
  unfold createFeaturesCols
  simp only [List.mem_append, List.mem_flatMap, List.mem_filter]
  constructor
  · rintro ((hA | hB) | hC)
    · exact absurd (hsub hA.1) (by cases m <;> decide)
    · exact absurd hB (by cases m <;> decide)
    · obtain ⟨m', ⟨hm', hc⟩, hin⟩ := hC
      have hc' : colName m' ∈ cols := of_decide_eq_true hc
      cases m <;> cases m' <;> first
        | exact hc'
        | exact absurd hin (by decide)
  · intro h
    right
    exact ⟨m, ⟨by cases m <;> decide, decide_eq_true h⟩, by simp⟩

/-- A metric's `_roll_avg3` column is in the featured schema exactly when the
metric's raw column was in the input schema. -/
theorem roll_mem_createFeaturesCols {cols : List String} (m : Metric)
    (hsub : cols ⊆ baseTableCols) :
    (colName m ++ "_roll_avg3") ∈ createFeaturesCols cols ↔ colName m ∈ cols := by
  unfold createFeaturesCols
  simp only [List.mem_append, List.mem_flatMap, List.mem_filter]
  constructor
  · rintro ((hA | hB) | hC)
    · exact absurd (hsub hA.1) (by cases m <;> decide)
    · exact absurd hB (by cases m <;> decide)
    · obtain ⟨m', ⟨hm', hc⟩, hin⟩ := hC
      have hc' : colName m' ∈ cols := of_decide_eq_true hc
      cases m <;> cases m' <;> first
        | exact hc'
        | exact absurd hin (by decide)
  · intro h
    right
    exact ⟨m, ⟨by cases m <;> decide, decide_eq_true h⟩, by simp⟩

/-- C6: for any upstream schema (a subset of the `city_metrics` columns), if
any of a metric's five feature columns is absent from the featured schema
the training loop's guard skips that metric (a logged skip, not a silent
empty model), and whenever the guard does not skip, the model is trained on
exactly the full five-column feature list. -/
theorem c6_missing_feature_skip (cols : List String) (m : Metric)
    (hsub : cols ⊆ baseTableCols) :
    ((∃ f ∈ feature_cols m, f ∉ createFeaturesCols cols) →
        skipsMetric m (createFeaturesCols cols) = true) ∧
      (skipsMetric m (createFeaturesCols cols) = false →
        valid_features m (createFeaturesCols cols) = feature_cols m) := by
  obtain ⟨hhour, hdow, hmonth⟩ := calendar_mem_createFeaturesCols cols
  by_cases hc : colName m ∈ cols
  · have hlag : (colName m ++ "_lag1") ∈ createFeaturesCols cols :=
      (lag1_mem_createFeaturesCols m hsub).2 hc
    have hroll : (colName m ++ "_roll_avg3") ∈ createFeaturesCols cols :=
      (roll_mem_createFeaturesCols m hsub).2 hc
    have hvalid : valid_features m (createFeaturesCols cols) = feature_cols m := by
      unfold valid_features
      rw [List.filter_eq_self]
      intro a ha
      unfold feature_cols at ha
      simp only [List.mem_cons, List.not_mem_nil, or_false] at ha
      rcases ha with rfl | rfl | rfl | rfl | rfl <;> exact decide_eq_true (by assumption)
    constructor
    · rintro ⟨f, hf, hnf⟩
      exfalso
      unfold feature_cols at hf
      simp only [List.mem_cons, List.not_mem_nil, or_false] at hf
      rcases hf with rfl | rfl | rfl | rfl | rfl <;> exact hnf (by assumption)
    · intro _
      exact hvalid
  · have hlag : (colName m ++ "_lag1") ∉ createFeaturesCols cols :=
      fun h => hc ((lag1_mem_createFeaturesCols m hsub).1 h)
    have hnotmem : (colName m ++ "_lag1") ∉ valid_features m (createFeaturesCols cols) := by
      intro hmem
      unfold valid_features at hmem
      exact hlag (of_decide_eq_true (List.mem_filter.1 hmem).2)
    have hskip : skipsMetric m (createFeaturesCols cols) = true := by
      unfold skipsMetric
      rw [decide_eq_false hnotmem]
      simp
    refine ⟨fun _ => hskip, fun h => ?_⟩
    rw [h] at hskip
    exact absurd hskip (by decide)

/-- Witness for C6: the `pm10` column dropped from the upstream schema makes
the guard skip pm10 for the area. -/
theorem c6_missing_feature_skip_witness :
    (["id", "timestamp", "area_name", "aqi", "pm25", "no2", "o3", "co",
        "temperature", "humidity"] ⊆ baseTableCols) ∧
      ((∃ f ∈ feature_cols .pm10,
          f ∉ createFeaturesCols ["id", "timestamp", "area_name", "aqi", "pm25",
            "no2", "o3", "co", "temperature", "humidity"]) →
        skipsMetric .pm10 (createFeaturesCols ["id", "timestamp", "area_name",
          "aqi", "pm25", "no2", "o3", "co", "temperature", "humidity"]) = true) ∧
      (skipsMetric .pm10 (createFeaturesCols ["id", "timestamp", "area_name",
          "aqi", "pm25", "no2", "o3", "co", "temperature", "humidity"]) = false →
        valid_features .pm10 (createFeaturesCols ["id", "timestamp", "area_name",
            "aqi", "pm25", "no2", "o3", "co", "temperature", "humidity"]) =
          feature_cols .pm10) :=
  ⟨by decide,
    c6_missing_feature_skip ["id", "timestamp", "area_name", "aqi", "pm25",
      "no2", "o3", "co", "temperature", "humidity"] .pm10 (by decide)⟩

/-- C4 counterexample: with a fit procedure that raises on its first call,
the entire run aborts with that error: the exception escapes the loop (there
is no try/except around `model.fit`), so no other area or metric is
processed. -/
theorem c4_counterexample :
    runTraining fitFail [("Colaba", rsA), ("Bandra", rsA)] =
      .error "fit rejected input" := rfl

/-- C4 amended: a fit-time failure is NOT isolated to its (area, metric)
unit: the loop body has no exception handler, so an error in one area's
training aborts the whole run, and no subsequent area or metric is
processed. -/
theorem c4_fit_failure_aborts_run (fit : FitProc) (a : String) (rs : List Reading)
    (rest : List (String × List Reading)) (e : String)
    (h : processArea fit a rs = .error e) :
    runTraining fit ((a, rs) :: rest) = .error e := by
  unfold runTraining
  rw [List.mapM_cons]
  show (processArea fit a rs >>= fun x =>
    (rest.mapM fun p => processArea fit p.1 p.2) >>= fun xs => pure (x :: xs)) =
      .error e
  rw [h]
  rfl

/-- Witness for C4 amended: the failing fit on the 51-reading Colaba group
aborts the single-area run. -/
theorem c4_fit_failure_aborts_run_witness :
    processArea fitFail "Colaba" rsA = .error "fit rejected input" ∧
      runTraining fitFail [("Colaba", rsA)] = .error "fit rejected input" :=
  ⟨rfl, c4_fit_failure_aborts_run fitFail "Colaba" rsA [] "fit rejected input" rfl⟩

end CityPipeline
